import Mathlib

/-!
Verification of the order-session engine of `cardapio-vr`
(`src/pages/UserMenu.tsx`), shallowly embedded in Lean 4.

Strings typed by the user (name, registration, notes) are modelled as
lists of characters; JavaScript regular-expression character classes are
translated to decidable character predicates over Unicode code points.
The Supabase calls of `handleSubmitOrder` are modelled by passing the
store's two outcomes (header insert, items insert) as parameters and
recording the store operations the code issues as a trace.
-/

namespace CardapioVR

/-- User-entered text, modelled as a list of characters. -/
abbrev Str := List Char

/-- The character class `\s` of JavaScript regular expressions:
tab, line feed, vertical tab, form feed, carriage return, space,
no-break space, ogham space mark, the U+2000 to U+200A range,
line separator, paragraph separator, narrow no-break space,
medium mathematical space, ideographic space, and the BOM. -/
def isJsSpace (c : Char) : Bool :=
  c.toNat = 9 || c.toNat = 10 || c.toNat = 11 || c.toNat = 12 || c.toNat = 13 ||
  c.toNat = 32 || c.toNat = 160 || c.toNat = 5760 ||
  (8192 ≤ c.toNat && c.toNat ≤ 8202) || c.toNat = 8232 || c.toNat = 8233 ||
  c.toNat = 8239 || c.toNat = 8287 || c.toNat = 12288 || c.toNat = 65279

/-- The letter ranges `A-Za-zÀ-ÖØ-öø-ÿ` shared by the name and
observations regular expressions of `UserMenu.tsx`. -/
def isLatinLetter (c : Char) : Bool :=
  (65 ≤ c.toNat && c.toNat ≤ 90) || (97 ≤ c.toNat && c.toNat ≤ 122) ||
  (192 ≤ c.toNat && c.toNat ≤ 214) || (216 ≤ c.toNat && c.toNat ≤ 246) ||
  (248 ≤ c.toNat && c.toNat ≤ 255)

/-- The character class `\d` (and `0-9`): a decimal digit. -/
def isDigitChar (c : Char) : Bool :=
  48 ≤ c.toNat && c.toNat ≤ 57

/-- A character admitted by the name regular expression
`[A-Za-zÀ-ÖØ-öø-ÿ\s]`: a Latin letter (ASCII or Latin-1 accented) or
JavaScript whitespace. -/
def isNameChar (c : Char) : Bool :=
  isLatinLetter c || isJsSpace c

/-- A character admitted by the observations regular expression
`[A-Za-zÀ-ÖØ-öø-ÿ0-9\s.,!?-]`. -/
def isObservationsChar (c : Char) : Bool :=
  isLatinLetter c || isDigitChar c || isJsSpace c ||
  c.toNat = 46 || c.toNat = 44 || c.toNat = 33 || c.toNat = 63 || c.toNat = 45

/-- `validateName` of `UserMenu.tsx`:
`/^[A-Za-zÀ-ÖØ-öø-ÿ\s]+$/.test(value)`. -/
def validateName (value : Str) : Bool :=
  !value.isEmpty && value.all isNameChar

/-- `validateRegistration` of `UserMenu.tsx`: `/^\d{4}$/.test(value)`. -/
def validateRegistration (value : Str) : Bool :=
  value.length = 4 && value.all isDigitChar

/-- `validateObservations` of `UserMenu.tsx`:
`/^[A-Za-zÀ-ÖØ-öø-ÿ0-9\s.,!?-]*$/.test(value)`. -/
def validateObservations (value : Str) : Bool :=
  value.all isObservationsChar

/-- `handleNameChange` of `UserMenu.tsx` calls `setUserName(value)` exactly
when `value === '' || validateName(value)`; this is that condition. -/
def handleNameChangeAccepts (value : Str) : Bool :=
  value.isEmpty || validateName value

/-- `handleRegistrationChange` of `UserMenu.tsx` calls
`setRegistration(value)` exactly when
`value === '' || (value.length <= 4 && /^\d*$/.test(value))`. -/
def handleRegistrationChangeAccepts (value : Str) : Bool :=
  value.isEmpty || (value.length ≤ 4 && value.all isDigitChar)

/-- `handleObservationsChange` of `UserMenu.tsx` calls
`setObservations(value)` exactly when
`value === '' || validateObservations(value)`. -/
def handleObservationsChangeAccepts (value : Str) : Bool :=
  value.isEmpty || validateObservations value

/-- The `admin_settings` row, with `opening_time` and `closing_time`
already split at `':'` and converted by `Number`, as lines 131-132 of
`UserMenu.tsx` do. -/
structure AdminSettings where
  openingHours : Nat
  openingMinutes : Nat
  closingHours : Nat
  closingMinutes : Nat
deriving DecidableEq

/-- `checkStoreStatus` of `UserMenu.tsx`, returning the value held by the
`isStoreOpen` state after the call.  When `settings` is `null` the
function returns early without calling `setIsStoreOpen`, so the previous
flag value is kept.  Otherwise: Sunday (`getDay() === 0`) forces `false`;
any other day compares `getHours()*60 + getMinutes()` against the window
bounds inclusively. -/
def checkStoreStatus (settings : Option AdminSettings)
    (hours minutes dayOfWeek : Nat) (isStoreOpen : Bool) : Bool :=
  match settings with
  | none => isStoreOpen
  | some s =>
    if dayOfWeek = 0 then
      false
    else
      let currentTime := hours * 60 + minutes
      let openingTime := s.openingHours * 60 + s.openingMinutes
      let closingTime := s.closingHours * 60 + s.closingMinutes
      decide (openingTime ≤ currentTime ∧ currentTime ≤ closingTime)

/-- `currentDay` of `UserMenu.tsx`:
`const day = new Date().getDay(); return day === 0 ? 6 : day;`. -/
def currentDay (day : Nat) : Nat :=
  if day = 0 then 6 else day

/-- The 09:00 to 14:00 opening window of spec scenario A. -/
def windowA : AdminSettings := ⟨9, 0, 14, 0⟩

/-- Folding `checkStoreStatus` with an absent window over any list of
clock ticks never changes the flag. -/
theorem checkStoreStatus_none_foldl (ticks : List (Nat × Nat × Nat)) (b : Bool) :
    ticks.foldl (fun flag t => checkStoreStatus none t.1 t.2.1 t.2.2 flag) b = b := by
  induction ticks generalizing b with
  | nil => rfl
  | cons t ts ih =>
    rw [List.foldl_cons]
    show List.foldl _ (checkStoreStatus none t.1 t.2.1 t.2.2 b) ts = b
    rw [show checkStoreStatus none t.1 t.2.1 t.2.2 b = b from rfl, ih b]

/-- C2 (counterexample): with an absent window, a status check whose
previous flag value is `true` does not set the flag to `false`; the
early return preserves the previous value. -/
theorem C2_absent_window_counterexample :
    ¬ (checkStoreStatus none 10 30 1 true = false) := by
  decide

/-- C2 (amended): when the opening window is absent the status check
leaves the exposed open flag unchanged (early return, no write), and
since the flag is initialised to `false`, it is still `false` after any
sequence of status checks performed while the window is absent. -/
theorem C2_absent_window_flag (h m d : Nat) (prev : Bool) :
    checkStoreStatus none h m d prev = prev ∧
    ∀ ticks : List (Nat × Nat × Nat),
      ticks.foldl (fun flag t => checkStoreStatus none t.1 t.2.1 t.2.2 flag) false = false := by
  exact ⟨rfl, fun ticks => checkStoreStatus_none_foldl ticks false⟩

/-- C3: with a present window whose opening minute is at most its closing
minute and on a non-Sunday day, the status check reports open exactly when
opening-minute ≤ current-minute-of-day ≤ closing-minute, both bounds
inclusive, minutes computed as hours × 60 + minutes. -/
theorem C3_window_inclusive_bounds (s : AdminSettings) (h m d : Nat) (prev : Bool)
    (hwin : s.openingHours * 60 + s.openingMinutes ≤ s.closingHours * 60 + s.closingMinutes)
    (hd : d ≠ 0) :
    checkStoreStatus (some s) h m d prev = true ↔
      (s.openingHours * 60 + s.openingMinutes ≤ h * 60 + m ∧
       h * 60 + m ≤ s.closingHours * 60 + s.closingMinutes) := by
  simp [checkStoreStatus, hd]

/-- C3 witness (spec scenario A): window 09:00 to 14:00 on Monday:
08:59 closed, 09:00 open, 14:00 open, 14:01 closed. -/
theorem C3_window_inclusive_bounds_witness :
    checkStoreStatus (some windowA) 8 59 1 false = false ∧
    checkStoreStatus (some windowA) 9 0 1 false = true ∧
    checkStoreStatus (some windowA) 14 0 1 false = true ∧
    checkStoreStatus (some windowA) 14 1 1 false = false := by
  refine ⟨?_, ?_, ?_, ?_⟩
  · have h := C3_window_inclusive_bounds windowA 8 59 1 false (by decide) (by decide)
    revert h; decide
  · have h := C3_window_inclusive_bounds windowA 9 0 1 false (by decide) (by decide)
    revert h; decide
  · have h := C3_window_inclusive_bounds windowA 14 0 1 false (by decide) (by decide)
    revert h; decide
  · have h := C3_window_inclusive_bounds windowA 14 1 1 false (by decide) (by decide)
    revert h; decide

/-- C9: with a present window, the status check yields closed on Sunday
(day 0), whatever the time, the window bounds and the previous flag. -/
theorem C9_sunday_closed (s : AdminSettings) (h m : Nat) (prev : Bool) :
    checkStoreStatus (some s) h m 0 prev = false := by
  simp [checkStoreStatus]

/-- A name character is never a decimal digit: the letter ranges and the
whitespace set of the name regular expression are disjoint from `0-9`. -/
theorem isNameChar_not_digit (c : Char) (h : isNameChar c = true) :
    isDigitChar c = false := by
  simp only [isNameChar, isLatinLetter, isJsSpace, isDigitChar,
    Bool.or_eq_true, Bool.and_eq_true, decide_eq_true_eq] at h ⊢
  simp only [Bool.and_eq_false_iff, decide_eq_false_iff_not, not_le]
  omega

/-- C4: the name validator accepts exactly the non-empty strings whose
characters all lie in the name character class (Latin letters, accented
range included, and whitespace); every accepted string contains no digit,
and every rejected non-empty string contains a disqualifying character. -/
theorem C4_name_validator (s : Str) :
    (validateName s = true ↔ s ≠ [] ∧ ∀ c ∈ s, isNameChar c = true) ∧
    (validateName s = true → ∀ c ∈ s, isDigitChar c = false) ∧
    (validateName s = false → s ≠ [] → ∃ c ∈ s, isNameChar c = false) := by
  have hiff : validateName s = true ↔ s ≠ [] ∧ ∀ c ∈ s, isNameChar c = true := by
    simp [validateName, List.all_eq_true, List.isEmpty_iff]
  refine ⟨hiff, ?_, ?_⟩
  · intro h c hc
    exact isNameChar_not_digit c ((hiff.mp h).2 c hc)
  · intro hfalse hne
    by_contra hnone
    push_neg at hnone
    have hall : ∀ c ∈ s, isNameChar c = true := by
      intro c hc
      have := hnone c hc
      revert this
      cases isNameChar c <;> simp
    rw [hiff.mpr ⟨hne, hall⟩] at hfalse
    cases hfalse

/-- A valid name and an invalid one, used to instantiate `C4_name_validator`. -/
def goodNameStr : Str := ['J', 'o', 'ã', 'o', ' ', 'S', 'i', 'l', 'v', 'a']

/-- C4 witness: "João Silva" is accepted and digit-free; "A1" is rejected
and exhibits a disqualifying character. -/
theorem C4_name_validator_witness :
    (validateName goodNameStr = true ∧ ∀ c ∈ goodNameStr, isDigitChar c = false) ∧
    (validateName ['A', '1'] = false ∧
      ∃ c ∈ (['A', '1'] : Str), isNameChar c = false) := by
  refine ⟨⟨by decide, (C4_name_validator goodNameStr).2.1 (by decide)⟩,
    by decide, (C4_name_validator ['A', '1']).2.2 (by decide) (by decide)⟩

/-- C5 (counterexample): the per-keystroke registration check accepts the
draft "1", which is neither empty nor accepted by the submission-time
validator `validateRegistration`, so the two checks are not the identical
predicate. -/
theorem C5_registration_keystroke_counterexample :
    ¬ (handleRegistrationChangeAccepts ['1'] = true ↔
        (['1'] = ([] : Str) ∨ validateRegistration ['1'] = true)) := by
  decide

/-- C5 (amended): for the name and notes fields the per-keystroke check
accepts a draft exactly when it is empty or the field's submission-time
validator accepts it; for the registration field the per-keystroke check
instead accepts exactly the strings of at most four decimal digits, a
strict superset containing the empty string, every valid registration and
every prefix of a valid registration. -/
theorem C5_keystroke_vs_submission (s : Str) :
    (handleNameChangeAccepts s = true ↔ (s = [] ∨ validateName s = true)) ∧
    (handleObservationsChangeAccepts s = true ↔ (s = [] ∨ validateObservations s = true)) ∧
    (handleRegistrationChangeAccepts s = true ↔
      (s.length ≤ 4 ∧ ∀ c ∈ s, isDigitChar c = true)) ∧
    (validateRegistration s = true → handleRegistrationChangeAccepts s = true) ∧
    (∀ t : Str, validateRegistration t = true → (∃ u, s ++ u = t) →
      handleRegistrationChangeAccepts s = true) := by
  have hreg : handleRegistrationChangeAccepts s = true ↔
      (s.length ≤ 4 ∧ ∀ c ∈ s, isDigitChar c = true) := by
    simp only [handleRegistrationChangeAccepts, Bool.or_eq_true, Bool.and_eq_true,
      List.isEmpty_iff, List.all_eq_true, decide_eq_true_eq]
    constructor
    · rintro (rfl | ⟨hlen, hall⟩)
      · exact ⟨by simp, by simp⟩
      · exact ⟨hlen, hall⟩
    · rintro ⟨hlen, hall⟩
      exact Or.inr ⟨hlen, hall⟩
  refine ⟨?_, ?_, hreg, ?_, ?_⟩
  · simp [handleNameChangeAccepts, List.isEmpty_iff]
  · simp [handleObservationsChangeAccepts, List.isEmpty_iff]
  · intro hval
    simp only [validateRegistration, Bool.and_eq_true, List.all_eq_true,
      decide_eq_true_eq] at hval
    exact hreg.mpr ⟨by omega, hval.2⟩
  · rintro t hval ⟨u, rfl⟩
    simp only [validateRegistration, Bool.and_eq_true, List.all_eq_true,
      List.length_append, List.mem_append, decide_eq_true_eq] at hval
    refine hreg.mpr ⟨by omega, fun c hc => hval.2 c (Or.inl hc)⟩

/-- C5 witness: the draft "12", a proper prefix of the valid registration
"1234", is accepted by the per-keystroke check. -/
theorem C5_keystroke_vs_submission_witness :
    handleRegistrationChangeAccepts ['1', '2'] = true :=
  (C5_keystroke_vs_submission ['1', '2']).2.2.2.2 ['1', '2', '3', '4']
    (by decide) ⟨['3', '4'], rfl⟩

/-- C10: the session's current-day value lies in 1..6 for every real
day-of-week in 0..6, belongs to the list of rendered days, and maps
Sunday (0) to Saturday (6). -/
theorem C10_current_day_range (day : Nat) (h : day ≤ 6) :
    (1 ≤ currentDay day ∧ currentDay day ≤ 6) ∧
    currentDay day ∈ [1, 2, 3, 4, 5, 6] ∧
    currentDay 0 = 6 := by
  have hrange : 1 ≤ currentDay day ∧ currentDay day ≤ 6 := by
    simp only [currentDay]
    split <;> omega
  refine ⟨hrange, ?_, rfl⟩
  have h1 := hrange.1
  have h2 := hrange.2
  interval_cases hd : currentDay day <;> simp

/-- C10 witness: on Sunday the current-day value is 6, inside 1..6. -/
theorem C10_current_day_range_witness :
    (1 ≤ currentDay 0 ∧ currentDay 0 ≤ 6) ∧
    currentDay 0 ∈ [1, 2, 3, 4, 5, 6] ∧
    currentDay 0 = 6 :=
  C10_current_day_range 0 (by decide)

/-- A cart entry: the (id, name) projection of a dish kept in the
`cart` state of `UserMenu.tsx`. -/
structure CartItem where
  id : String
  name : String
deriving DecidableEq

/-- A dish row as fetched from the store. -/
structure Dish where
  id : String
  name : String
  description : String
  image_url : String
  day_of_week : Nat
deriving DecidableEq

/-- The state visible after a call to `addToCart`: the `cart` and
`isCartOpen` React states and the toast message emitted. -/
structure AddToCartResult where
  cart : List CartItem
  isCartOpen : Bool
  notice : String
deriving DecidableEq

/-- `addToCart` of `UserMenu.tsx`: rejects with a notice when the store
is closed, rejects when `cart.some(item => item.id === dish.id)`, and
otherwise appends `{ id: dish.id, name: dish.name }` and opens the cart
panel. -/
def addToCart (isStoreOpen isCartOpen : Bool) (cart : List CartItem)
    (dish : Dish) : AddToCartResult :=
  if !isStoreOpen then
    ⟨cart, isCartOpen, "Restaurante fechado no momento"⟩
  else if cart.any (fun item => item.id == dish.id) then
    ⟨cart, isCartOpen, "Item já está no carrinho"⟩
  else
    ⟨cart ++ [⟨dish.id, dish.name⟩], true, "Item adicionado ao carrinho"⟩

/-- C6: `addToCart` leaves the cart unchanged when the store is closed or
when an entry with the dish's id is already present; otherwise it appends
the (id, name) entry at the end; it preserves distinctness of the ids in
the cart; and once a call has run with the store open, adding the same
dish again never changes the cart. -/
theorem C6_add_to_cart_invariants (isOpen panel : Bool) (cart : List CartItem)
    (dish : Dish) :
    (isOpen = false → (addToCart isOpen panel cart dish).cart = cart) ∧
    ((∃ e ∈ cart, e.id = dish.id) → (addToCart isOpen panel cart dish).cart = cart) ∧
    (isOpen = true → (∀ e ∈ cart, e.id ≠ dish.id) →
      (addToCart isOpen panel cart dish).cart = cart ++ [⟨dish.id, dish.name⟩]) ∧
    ((cart.map CartItem.id).Nodup →
      ((addToCart isOpen panel cart dish).cart.map CartItem.id).Nodup) ∧
    (isOpen = true → ∀ o2 p2 : Bool,
      (addToCart o2 p2 (addToCart isOpen panel cart dish).cart dish).cart =
        (addToCart isOpen panel cart dish).cart) := by
  have hmem_any : (∃ e ∈ cart, e.id = dish.id) ↔
      cart.any (fun item => item.id == dish.id) = true := by
    simp [List.any_eq_true]
  have hclosed : ∀ p c, (addToCart false p c dish).cart = c := by
    intro p c
    simp [addToCart]
  have hdup : ∀ p c, c.any (fun item => item.id == dish.id) = true →
      (addToCart true p c dish).cart = c := by
    intro p c hc
    simp [addToCart, hc]
  have hnew : ∀ p c, c.any (fun item => item.id == dish.id) = false →
      (addToCart true p c dish).cart = c ++ [⟨dish.id, dish.name⟩] := by
    intro p c hc
    simp [addToCart, hc]
  refine ⟨?_, ?_, ?_, ?_, ?_⟩
  · rintro rfl
    exact hclosed panel cart
  · intro hmem
    cases isOpen with
    | false => exact hclosed panel cart
    | true => exact hdup panel cart (hmem_any.mp hmem)
  · rintro rfl hnot
    refine hnew panel cart ?_
    rcases h : cart.any (fun item => item.id == dish.id) with _ | _
    · rfl
    · rcases hmem_any.mpr h with ⟨e, he, hid⟩
      exact absurd hid (hnot e he)
  · intro hnodup
    cases isOpen with
    | false => rw [hclosed panel cart]; exact hnodup
    | true =>
      rcases h : cart.any (fun item => item.id == dish.id) with _ | _
      · rw [hnew panel cart h]
        have hnot : dish.id ∉ cart.map CartItem.id := by
          simp only [List.any_eq_false, beq_iff_eq] at h
          simp only [List.mem_map, not_exists, not_and]
          intro e he
          exact fun habs => h e he (habs)
        simp only [List.map_append, List.map_cons, List.map_nil]
        rw [List.nodup_append]
        exact ⟨hnodup, List.nodup_singleton _, by
          intro a ha hb
          simp only [List.mem_singleton] at hb
          subst hb
          exact hnot ha⟩
      · rw [hdup panel cart h]; exact hnodup
  · rintro rfl o2 p2
    have hin : (addToCart true panel cart dish).cart.any
        (fun item => item.id == dish.id) = true := by
      rcases h : cart.any (fun item => item.id == dish.id) with _ | _
      · rw [hnew panel cart h]
        simp [List.any_append]
      · rw [hdup panel cart h, h]
    cases o2 with
    | false => exact hclosed p2 _
    | true => exact hdup p2 _ hin

/-- The dish and cart of spec scenario B. -/
def dishX : Dish := ⟨"x1", "Feijoada", "", "", 1⟩

/-- The one-entry cart of spec scenario B. -/
def cartB : List CartItem := [⟨"x1", "Feijoada"⟩]

/-- C6 witness (spec scenario B): adding "x1" to a cart already holding
"x1" with the store open leaves the cart unchanged, and its ids stay
duplicate-free. -/
theorem C6_add_to_cart_invariants_witness :
    (addToCart true false cartB dishX).cart = cartB ∧
    ((addToCart true false cartB dishX).cart.map CartItem.id).Nodup := by
  have h := C6_add_to_cart_invariants true false cartB dishX
  exact ⟨h.2.1 ⟨⟨"x1", "Feijoada"⟩, by decide, by decide⟩,
    h.2.2.2.1 (by decide)⟩

/-- The session state read and written by `handleSubmitOrder`: the cart,
the three submitter fields and the cart-panel flag. -/
structure SessionState where
  cart : List CartItem
  userName : Str
  registration : Str
  observations : Str
  isCartOpen : Bool
deriving DecidableEq

/-- A row of the `order_items` insert:
`{ order_id: order.id, dish_id: item.id }`. -/
structure OrderItemRow where
  order_id : Nat
  dish_id : String
deriving DecidableEq

/-- A write issued against the external store.  `handleSubmitOrder` only
ever issues the two inserts; a compensating delete constructor is included
so that its absence from every trace can be stated. -/
inductive StoreOp where
  | insertOrder (user_name registration observations : Str)
  | insertOrderItems (items : List OrderItemRow)
  | deleteOrder (order_id : Nat)
deriving DecidableEq

/-- The observable outcome of one `handleSubmitOrder` call: the toast
message, the session state afterwards, and the trace of store writes
issued (in order). -/
structure SubmitResult where
  notice : String
  state : SessionState
  ops : List StoreOp
deriving DecidableEq

/-- `handleSubmitOrder` of `UserMenu.tsx`.  The four validation guards
return early with a field-specific toast and no store write.  Then the
order header is inserted; `headerOutcome` is the store's response
(`.ok id` carries `order.id` from `.select().single()`).  On header
error the code throws into the catch block: generic toast, state kept.
On success the `order_items` rows are built from the cart and inserted;
`itemsOutcome` is that response.  On items error: same catch block, same
generic toast, state kept, and the already-inserted header is left alone.
On success: success toast, cart cleared, fields reset, panel closed. -/
def handleSubmitOrder (st : SessionState) (headerOutcome : Except Unit Nat)
    (itemsOutcome : Except Unit Unit) : SubmitResult :=
  if st.userName.isEmpty || !validateName st.userName then
    ⟨"Por favor, insira um nome válido (apenas letras)", st, []⟩
  else if st.registration.isEmpty || !validateRegistration st.registration then
    ⟨"Por favor, insira uma matrícula válida (4 dígitos)", st, []⟩
  else if !st.observations.isEmpty && !validateObservations st.observations then
    ⟨"Por favor, insira observações válidas (apenas texto e pontuação básica)", st, []⟩
  else if st.cart.length = 0 then
    ⟨"Adicione itens ao carrinho", st, []⟩
  else
    match headerOutcome with
    | .error _ =>
      ⟨"Erro ao realizar pedido", st,
        [.insertOrder st.userName st.registration st.observations]⟩
    | .ok orderId =>
      let orderItems := st.cart.map (fun item => OrderItemRow.mk orderId item.id)
      match itemsOutcome with
      | .error _ =>
        ⟨"Erro ao realizar pedido", st,
          [.insertOrder st.userName st.registration st.observations,
           .insertOrderItems orderItems]⟩
      | .ok _ =>
        ⟨"Pedido realizado com sucesso!",
          ⟨[], [], [], [], false⟩,
          [.insertOrder st.userName st.registration st.observations,
           .insertOrderItems orderItems]⟩

/-- C7: submission validation runs in the order name, registration,
notes, cart; each failing guard returns its own single message with the
session state untouched and no store write, and later guards are not
reached.  The first conjunct holds for every cart, so an invalid name
together with an empty cart reports exactly the name error. -/
theorem C7_validation_first_failure_wins (st : SessionState)
    (ho : Except Unit Nat) (hi : Except Unit Unit) :
    ((st.userName.isEmpty || !validateName st.userName) = true →
      handleSubmitOrder st ho hi =
        ⟨"Por favor, insira um nome válido (apenas letras)", st, []⟩) ∧
    ((st.userName.isEmpty || !validateName st.userName) = false →
     (st.registration.isEmpty || !validateRegistration st.registration) = true →
      handleSubmitOrder st ho hi =
        ⟨"Por favor, insira uma matrícula válida (4 dígitos)", st, []⟩) ∧
    ((st.userName.isEmpty || !validateName st.userName) = false →
     (st.registration.isEmpty || !validateRegistration st.registration) = false →
     (!st.observations.isEmpty && !validateObservations st.observations) = true →
      handleSubmitOrder st ho hi =
        ⟨"Por favor, insira observações válidas (apenas texto e pontuação básica)", st, []⟩) ∧
    ((st.userName.isEmpty || !validateName st.userName) = false →
     (st.registration.isEmpty || !validateRegistration st.registration) = false →
     (!st.observations.isEmpty && !validateObservations st.observations) = false →
     st.cart.length = 0 →
      handleSubmitOrder st ho hi = ⟨"Adicione itens ao carrinho", st, []⟩) := by
  refine ⟨?_, ?_, ?_, ?_⟩
  · intro h1
    simp [handleSubmitOrder, h1]
  · intro h1 h2
    simp [handleSubmitOrder, h1, h2]
  · intro h1 h2 h3
    simp [handleSubmitOrder, h1, h2, h3]
  · intro h1 h2 h3 h4
    simp [handleSubmitOrder, h1, h2, h3, h4]

/-- A state with an invalid name and an empty cart at once. -/
def stBadName : SessionState := ⟨[], ['A', '1'], ['1', '2', '3', '4'], [], false⟩

/-- C7 witness: with name "A1" (invalid) and an empty cart, submission
reports exactly the name error, keeps the state and writes nothing. -/
theorem C7_validation_first_failure_wins_witness :
    handleSubmitOrder stBadName (.ok 1) (.ok ()) =
      ⟨"Por favor, insira um nome válido (apenas letras)", stBadName, []⟩ :=
  (C7_validation_first_failure_wins stBadName (.ok 1) (.ok ())).1 (by decide)

/-- C1: when every validation guard passes, the header insert succeeds
with some order id and the items insert fails, the call ends with the
same generic failure notice as a header failure, the session state (cart,
fields, panel flag) is unchanged for retry, the trace shows the header
insert followed by the failed items insert, and no delete of the orphan
header appears in the trace. -/
theorem C1_items_failure_orphan_header (st : SessionState) (orderId : Nat)
    (h1 : (st.userName.isEmpty || !validateName st.userName) = false)
    (h2 : (st.registration.isEmpty || !validateRegistration st.registration) = false)
    (h3 : (!st.observations.isEmpty && !validateObservations st.observations) = false)
    (h4 : st.cart.length ≠ 0) :
    handleSubmitOrder st (.ok orderId) (.error ()) =
      ⟨"Erro ao realizar pedido", st,
        [.insertOrder st.userName st.registration st.observations,
         .insertOrderItems (st.cart.map (fun item => OrderItemRow.mk orderId item.id))]⟩ ∧
    (handleSubmitOrder st (.ok orderId) (.error ())).notice =
      (handleSubmitOrder st (.error ()) (.error ())).notice ∧
    (handleSubmitOrder st (.ok orderId) (.error ())).state = st ∧
    ∀ oid : Nat, StoreOp.deleteOrder oid ∉ (handleSubmitOrder st (.ok orderId) (.error ())).ops := by
  have hmain : handleSubmitOrder st (.ok orderId) (.error ()) =
      ⟨"Erro ao realizar pedido", st,
        [.insertOrder st.userName st.registration st.observations,
         .insertOrderItems (st.cart.map (fun item => OrderItemRow.mk orderId item.id))]⟩ := by
    simp [handleSubmitOrder, h1, h2, h3, h4]
  have hheader : handleSubmitOrder st (.error ()) (.error ()) =
      ⟨"Erro ao realizar pedido", st,
        [.insertOrder st.userName st.registration st.observations]⟩ := by
    simp [handleSubmitOrder, h1, h2, h3, h4]
  refine ⟨hmain, ?_, ?_, ?_⟩
  · rw [hmain, hheader]
  · rw [hmain]
  · intro oid
    rw [hmain]
    simp

/-- The submitter and cart of spec scenarios C and D:
name "João Silva", registration "1234", empty notes, cart ["o1"],
cart panel open. -/
def stScenarioC : SessionState :=
  ⟨[⟨"o1", "Feijoada"⟩], goodNameStr, ['1', '2', '3', '4'], [], true⟩

/-- C1 witness (spec scenario D): header succeeds with id 77, items fail:
generic notice, state kept, no delete of the orphan header. -/
theorem C1_items_failure_orphan_header_witness :
    handleSubmitOrder stScenarioC (.ok 77) (.error ()) =
      ⟨"Erro ao realizar pedido", stScenarioC,
        [.insertOrder stScenarioC.userName stScenarioC.registration stScenarioC.observations,
         .insertOrderItems [⟨77, "o1"⟩]]⟩ ∧
    (∀ oid : Nat, StoreOp.deleteOrder oid ∉
      (handleSubmitOrder stScenarioC (.ok 77) (.error ())).ops) := by
  have h := C1_items_failure_orphan_header stScenarioC 77
    (by decide) (by decide) (by decide) (by decide)
  exact ⟨h.1, h.2.2.2⟩

/-- C8: when every validation guard passes and both the header insert
(returning an order id) and the items insert succeed, the call commits:
success notice, cart emptied, all three fields reset to empty, cart panel
closed, and the trace holds exactly the two inserts. -/
theorem C8_commit_resets_session (st : SessionState) (orderId : Nat)
    (h1 : (st.userName.isEmpty || !validateName st.userName) = false)
    (h2 : (st.registration.isEmpty || !validateRegistration st.registration) = false)
    (h3 : (!st.observations.isEmpty && !validateObservations st.observations) = false)
    (h4 : st.cart.length ≠ 0) :
    handleSubmitOrder st (.ok orderId) (.ok ()) =
      ⟨"Pedido realizado com sucesso!",
        ⟨[], [], [], [], false⟩,
        [.insertOrder st.userName st.registration st.observations,
         .insertOrderItems (st.cart.map (fun item => OrderItemRow.mk orderId item.id))]⟩ := by
  simp [handleSubmitOrder, h1, h2, h3, h4]

/-- C8 witness (spec scenario C): "João Silva"/"1234"/no notes with cart
["o1"], header id 77, items succeed: success notice, state reset. -/
theorem C8_commit_resets_session_witness :
    handleSubmitOrder stScenarioC (.ok 77) (.ok ()) =
      ⟨"Pedido realizado com sucesso!",
        ⟨[], [], [], [], false⟩,
        [.insertOrder stScenarioC.userName stScenarioC.registration stScenarioC.observations,
         .insertOrderItems [⟨77, "o1"⟩]]⟩ :=
  C8_commit_resets_session stScenarioC 77 (by decide) (by decide) (by decide) (by decide)

end CardapioVR
